import Mathlib

/-!
# Shallow embedding of the rpcx etcd client selector

This file embeds `clientselector/etcd_selector.go` from the rpcx repository:
the `EtcdClientSelector` state, registry pull and watch reconciliation,
the connection cache, and the `Select` dispatch.  Pure Go string helpers
(`strings.Split`, `strings.TrimPrefix`, `url.ParseQuery`, `strconv.Atoi`)
are embedded as executable Lean functions over character lists.  Functions
of the repository that live outside this source file (`nextWeighted`,
`getClosestServer`, `JumpConsistentHash`, `Ping`/`CalculateWeight`, the
dialer `NewDirectRPCClient`) are modelled from the spec, as marked on each
definition.  Go map values are modelled as association lists whose list
order also stands for Go's (arbitrary) map iteration order.  A `closed`
trace records connections on which `Close()` was called and a `dialed`
trace records addresses for which a dial was attempted; both are pure
event instrumentation and are never read by the embedded operations.
-/

namespace EtcdSelector

/-- Connection handles: `*core.Client` pointer identities. -/
abbrev Conn := Nat

/-! ## Go string helpers -/

/-- `strings.Split` on a one-character separator, over character lists. -/
def splitOnCharAux (sep : Char) : List Char → List Char → List (List Char)
  | [], acc => [acc.reverse]
  | c :: rest, acc =>
    if c = sep then acc.reverse :: splitOnCharAux sep rest []
    else splitOnCharAux sep rest (c :: acc)

/-- `strings.Split(s, sep)` for a one-character separator. -/
def goSplit (s : String) (sep : Char) : List String :=
  (splitOnCharAux sep s.data []).map String.mk

/-- Is the first list an initial segment of the second? (`strings.HasPrefix`). -/
def hasPre : List Char → List Char → Bool
  | [], _ => true
  | _ :: _, [] => false
  | p :: ps, s :: ss => p = s && hasPre ps ss

/-- `strings.TrimPrefix(s, pre)`. -/
def trimPre (s pre : String) : String :=
  if hasPre pre.data s.data then String.mk (s.data.drop pre.data.length) else s

/-- Split a query segment at the first `=`: `(key, value)`, value empty when
there is no `=` (as in Go's query parsing). -/
def splitFirstEq : List Char → List Char × List Char
  | [] => ([], [])
  | c :: rest =>
    if c = '=' then ([], rest)
    else
      let p := splitFirstEq rest
      (c :: p.1, p.2)

/-- The key/value segments of a query string, in order (empty segments are
skipped, as in `url.ParseQuery`).  Percent decoding is not modelled. -/
def querySegs (v : String) : List (String × String) :=
  (splitOnCharAux '&' v.data []).filterMap (fun seg =>
    if seg.isEmpty then none
    else
      let p := splitFirstEq seg
      some (String.mk p.1, String.mk p.2))

/-- Approximates the error condition of `url.ParseQuery`: a percent escape or a
semicolon can make it fail; plain `key=value&key=value` strings always parse.
The repository's metadata values use neither character. -/
def queryParseOk (v : String) : Bool :=
  !(v.data.any (fun c => c == '%' || c == ';'))

/-- `url.Values.Get`: the first value recorded for the key, or `""`. -/
def queryGet (v k : String) : String :=
  match (querySegs v).find? (fun p => p.1 == k) with
  | some p => p.2
  | none => ""

/-- Decimal digit accumulator for `strconv.Atoi`. -/
def digitsValAux : List Char → Nat → Option Nat
  | [], acc => some acc
  | c :: rest, acc =>
    if c.isDigit then digitsValAux rest (acc * 10 + (c.toNat - 48)) else none

/-- `strconv.Atoi`: optional sign then decimal digits; anything else errors.
(64-bit overflow is not modelled; the repository's weights are small.) -/
def atoi? (s : String) : Option Int :=
  match s.data with
  | [] => none
  | '+' :: rest =>
    if rest.isEmpty then none else (digitsValAux rest 0).map (fun n => (n : Int))
  | '-' :: rest =>
    if rest.isEmpty then none else (digitsValAux rest 0).map (fun n => -(n : Int))
  | cs => (digitsValAux cs 0).map (fun n => (n : Int))

/-! ## Association-list model of Go maps

The list order also models Go's arbitrary map iteration order: a theorem
quantifying over the list quantifies over every possible iteration order. -/

/-- `m[k]` as an `Option`: the value stored at the key, if the key is present. -/
def alFind {α : Type} : List (String × α) → String → Option α
  | [], _ => none
  | e :: rest, k => if e.1 = k then some e.2 else alFind rest k

/-- `m[k] = v`: overwrite in place, or append a fresh entry. -/
def alSet {α : Type} : List (String × α) → String → α → List (String × α)
  | [], k, v => [(k, v)]
  | e :: rest, k, v => if e.1 = k then (k, v) :: rest else e :: alSet rest k v

/-- `delete(m, k)`. -/
def alDel {α : Type} : List (String × α) → String → List (String × α)
  | [], _ => []
  | e :: rest, k => if e.1 = k then alDel rest k else e :: alDel rest k

/-- Reading a `map[string]*core.Client`: a missing key and a stored nil pointer
both read back as nil (`none`). -/
def mapGet (m : List (String × Option Conn)) (k : String) : Option Conn :=
  match alFind m k with
  | some v => v
  | none => none

/-! ## Data model -/

/-- The `Weighted` record used by weighted round-robin (declared in the rpcx
package; its `Server` field holds the server key string here). -/
structure Weighted where
  Server : String
  Weight : Int
  EffectiveWeight : Int
deriving DecidableEq, Repr

/-- One node of an etcd `Get`/watch response. -/
structure EtcdNode where
  Key : String
  Value : String
  Dir : Bool
deriving DecidableEq, Repr

/-- The result of `KeysAPI.Get`: `failure` covers both a non-nil error and a
nil `resp.Node`; `success nodes` carries `resp.Node.Nodes`. -/
inductive GetResult where
  | failure
  | success (nodes : List EtcdNode)
deriving DecidableEq, Repr

/-- One watch notification: its action tag and the affected node. -/
structure WatchResp where
  Action : String
  NodeKey : String
  NodeDir : Bool
deriving DecidableEq, Repr

namespace rpcx

/-- `rpcx.SelectMode`; `Unknown` stands for any value outside the dispatch
table, hitting `Select`'s default branch. -/
inductive SelectMode where
  | RandomSelect
  | RoundRobin
  | WeightedRoundRobin
  | WeightedICMP
  | ConsistentHash
  | Closest
  | Unknown
deriving DecidableEq, Repr

end rpcx

/-- The mutable state of an `EtcdClientSelector`.  `closed` and `dialed` are
pure event traces (connections closed, addresses dialed); no embedded
operation reads them. -/
structure SelectorState where
  BasePath : String
  Group : String
  Servers : List String
  WeightedServers : List Weighted
  clientAndServer : List (String × Option Conn)
  metadata : List (String × String)
  SelectMode : rpcx.SelectMode
  currentServer : Nat
  len : Nat
  closed : List Conn
  dialed : List String
deriving DecidableEq, Repr

/-- The outcome of an operation returning `(*core.Client, error)`:
`result` carries the returned pair, `panics` models a Go runtime panic. -/
inductive SelectOutcome where
  | result (conn : Option Conn) (err : Option String)
  | panics (msg : String)
deriving DecidableEq, Repr

/-- The external collaborators of the selector, fixed for a run:
`rndIntn n` models the draw of `rand.Intn n` for `n > 0` (reduced mod `n` at
the use site so the draw is in range); `dial net hp` models
`NewDirectRPCClient` (modelled from the spec: it returns a connection handle
and an error, the handle being nil exactly when the dial fails); `hash n`
models `HashServiceAndArgs(n, options)` (`JumpConsistentHash` by default);
`dist addr` models the great-circle distance from the configured coordinates
to the server at `addr` (modelled from the spec, absorbing the coordinate
values); `icmpW addr` models `CalculateWeight(Ping(host))` for the
`WeightedICMP` mode (modelled from the spec). -/
structure Env where
  rndIntn : Nat → Nat
  dial : String → String → Option Conn × Option String
  hash : Nat → Nat
  dist : String → Nat
  icmpW : String → Int

/-! ## Spec-modelled collaborators defined outside this source file -/

/-- Index of the record with the largest `EffectiveWeight` (first maximum). -/
def argmaxEff (ws : List Weighted) : Option Nat :=
  (ws.enum.foldl (fun acc p =>
    match acc with
    | none => some p
    | some q => if p.2.EffectiveWeight > q.2.EffectiveWeight then some p else some q)
    none).map (fun p => p.1)

/-- Modelled from the spec: `nextWeighted` (the Weight Engine's smooth weighted
round-robin step, defined outside this source file).  Every record's
`EffectiveWeight` grows by its `Weight`, the record with the largest
`EffectiveWeight` is chosen, and the total declared weight is subtracted from
the chosen record.  Returns the chosen server key with the mutated record
list; `none` models the nil record returned on an empty list. -/
def nextWeighted (ws : List Weighted) : Option (String × List Weighted) :=
  let stepped := ws.map (fun w => { w with EffectiveWeight := w.EffectiveWeight + w.Weight })
  let total := ws.foldl (fun a w => a + w.Weight) 0
  match argmaxEff stepped with
  | none => none
  | some i =>
    match stepped.get? i with
    | none => none
    | some w =>
      some (w.Server,
        stepped.enum.map (fun p =>
          if p.1 = i then { p.2 with EffectiveWeight := p.2.EffectiveWeight - total }
          else p.2))

/-- Modelled from the spec: are a server's declared coordinates parseable?
`latitude` and `longitude` must both be decimal numbers (optional sign,
digits, at most one dot); this stands in for `strconv.ParseFloat` on the two
metadata fields. -/
def isDecimal (s : String) : Bool :=
  let cs :=
    match s.data with
    | '+' :: r => r
    | '-' :: r => r
    | r => r
  !cs.isEmpty && cs.all (fun c => c.isDigit || c == '.') &&
    decide ((cs.filter (fun c => c == '.')).length ≤ 1) &&
    cs.any (fun c => c.isDigit)

/-- Modelled from the spec: a metadata value yields a geo candidate only when
both coordinate fields parse. -/
def hasValidCoords (v : String) : Bool :=
  queryParseOk v && isDecimal (queryGet v "latitude") && isDecimal (queryGet v "longitude")

/-- Modelled from the spec: `getClosestServer` (the Geo Distance Function,
defined outside this source file).  Servers whose metadata lacks parseable
`latitude`/`longitude` are excluded; among the rest, the addresses tied for
minimum great-circle distance (abstracted by the `dist` oracle) are returned.
With no valid coordinates anywhere the result is empty. -/
def getClosestServer (dist : String → Nat) (md : List (String × String)) : List String :=
  let cands := md.filter (fun kv => hasValidCoords kv.2)
  match cands.map (fun kv => dist kv.1) with
  | [] => []
  | d :: ds =>
    let dmin := ds.foldl Nat.min d
    (cands.filter (fun kv => dist kv.1 == dmin)).map (fun kv => kv.1)

/-! ## Operations of `etcd_selector.go` -/

/-- `getCachedClient`: read the cache; on a miss split the key on `"@"` and
dial, inserting the dial result (even a failed, nil one) into the cache and
returning the dial error.  A key without `"@"` makes `ss[1]` panic. -/
def getCachedClient (env : Env) (st : SelectorState) (server : String) :
    SelectorState × SelectOutcome :=
  match mapGet st.clientAndServer server with
  | some c => (st, .result (some c) none)
  | none =>
    match goSplit server '@' with
    | s0 :: s1 :: _ =>
      let r := env.dial s0 s1
      ({ st with clientAndServer := alSet st.clientAndServer server r.1,
                 dialed := st.dialed ++ [server] },
       .result r.1 r.2)
    | _ => (st, .panics "index out of range")

/-- `AllClients`: dial every known server, keep the successes, skip dial
errors.  `none` models the `ss[1]` index-out-of-range panic on a key without
`"@"`. -/
def AllClients (env : Env) (st : SelectorState) : Option (List (Option Conn)) :=
  st.Servers.foldl (fun acc sv =>
    match acc with
    | none => none
    | some cs =>
      match goSplit sv '@' with
      | s0 :: s1 :: _ =>
        let r := env.dial s0 s1
        if r.2.isSome then some cs else some (cs ++ [r.1])
      | _ => none) (some [])

/-- Remove the element at an index (`append(l[0:k], l[k+1:]...)`). -/
def removeIdx {α : Type} (l : List α) (k : Nat) : List α :=
  l.take k ++ l.drop (k + 1)

/-- One step of `removeInactiveServers`: drop index `k` from both parallel
sequences and, when the removed address (read from `Servers` before the
removal) has a cached non-nil connection, delete the cache entry and close
the connection.  The indices passed by the caller are always in range. -/
def removeOne (st : SelectorState) (k : Nat) : SelectorState :=
  match mapGet st.clientAndServer (st.Servers.getD k "") with
  | some c =>
    { st with Servers := removeIdx st.Servers k,
              WeightedServers := removeIdx st.WeightedServers k,
              clientAndServer := alDel st.clientAndServer (st.Servers.getD k ""),
              closed := c :: st.closed }
  | none =>
    { st with Servers := removeIdx st.Servers k,
              WeightedServers := removeIdx st.WeightedServers k }

/-- `removeInactiveServers`: process the collected indices from last to
first. -/
def removeInactiveServers (st : SelectorState) (inactive : List Nat) : SelectorState :=
  inactive.reverse.foldl removeOne st

/-- The inactivity test of `createWeighted`: only applied when the metadata
parses; state neither empty nor `"active"`, or a group mismatch, marks the
record inactive. -/
def isInactive (group : String) (n : EtcdNode) : Bool :=
  queryParseOk n.Value &&
    (let state := queryGet n.Value "state"
     let g := queryGet n.Value "group"
     ((state != "" && state != "active") || group != g))

/-- The weight a node's record receives: the parsed `weight` field when the
metadata parses, the field is non-empty and `strconv.Atoi` succeeds;
otherwise the default 1. -/
def nodeWeight (v : String) : Int :=
  if queryParseOk v then
    let w := queryGet v "weight"
    if w == "" then 1
    else
      match atoi? w with
      | some weight => weight
      | none => 1
  else 1

/-- The `Weighted` record built for one node (weight and effective weight are
both set to the parsed-or-default weight, as in the Go loop). -/
def mkWeighted (base : String) (n : EtcdNode) : Weighted :=
  { Server := trimPre n.Key base, Weight := nodeWeight n.Value,
    EffectiveWeight := nodeWeight n.Value }

/-- `createWeighted`: rebuild `WeightedServers` (the Go code allocates a slice
of length `len(s.Servers)` and fills index `i` from `nodes[i]`; at its only
call site `s.Servers` was just rebuilt from these same nodes, one record per
node), record every node's raw value in `metadata`, collect the inactive
indices in ascending order, and remove them. -/
def createWeighted (st : SelectorState) (nodes : List EtcdNode) : SelectorState :=
  let base := st.BasePath ++ "/"
  let ws := nodes.map (mkWeighted base)
  let md := nodes.foldl (fun m n => alSet m (trimPre n.Key base) n.Value) st.metadata
  let inactive := (nodes.enum.filter (fun p => isInactive st.Group p.2)).map (fun p => p.1)
  removeInactiveServers { st with WeightedServers := ws, metadata := md } inactive

/-- The `WeightedICMP` step of `pullServers`: overwrite every record's weight
and effective weight from the ping result (the split/`Ping`/`CalculateWeight`
pipeline is outside this source file and is absorbed by the `env.icmpW`
oracle). -/
def icmpStep (env : Env) (st : SelectorState) : SelectorState :=
  if st.SelectMode = rpcx.SelectMode.WeightedICMP then
    { st with WeightedServers := st.WeightedServers.map (fun w =>
        { w with Weight := env.icmpW w.Server, EffectiveWeight := env.icmpW w.Server }) }
  else st

/-- `s.len = len(s.Servers)`. -/
def setLen (st : SelectorState) : SelectorState :=
  { st with len := st.Servers.length }

/-- The cursor clamp at the end of `pullServers`. -/
def clampStep (st : SelectorState) : SelectorState :=
  if st.len > 0 then { st with currentServer := st.currentServer % st.len } else st

/-- The success-with-children path of `pullServers`: rebuild `Servers`, run
`createWeighted`, overwrite weights from ping for `WeightedICMP`, set `len`,
and clamp the cursor. -/
def pullSuccess (env : Env) (st : SelectorState) (nodes : List EtcdNode) : SelectorState :=
  clampStep (setLen (icmpStep env (createWeighted
    { st with Servers := nodes.map (fun n => trimPre n.Key (st.BasePath ++ "/")) } nodes)))

/-- `pullServers`: on failure (error or nil node) nothing changes; on success
with children the view is rebuilt; on success with zero children only the
connection cache is replaced by a fresh empty map. -/
def pullServers (env : Env) (st : SelectorState) (r : GetResult) : SelectorState :=
  match r with
  | .failure => st
  | .success nodes =>
    if nodes.length > 0 then pullSuccess env st nodes
    else { st with clientAndServer := [] }

/-- The extra eviction done on an `expire` notification for a non-directory
node: the affected address's cache entry is deleted (the connection is not
closed here). -/
def expireEvict (st : SelectorState) (res : WatchResp) : SelectorState :=
  if res.NodeDir = false then
    { st with clientAndServer := alDel st.clientAndServer (trimPre res.NodeKey (st.BasePath ++ "/")) }
  else st

/-- One iteration of the `watch` loop body on a received notification, with
the etcd `Get` outcome the triggered pull would observe.  The second
component records whether `pullServers` was invoked. -/
def watchStep (env : Env) (st : SelectorState) (res : WatchResp) (r : GetResult) :
    SelectorState × Bool :=
  if res.Action = "expire" then (expireEvict (pullServers env st r) res, true)
  else if res.Action = "set" ∨ res.Action = "update" then (pullServers env st r, true)
  else if res.Action = "delete" then (pullServers env st r, true)
  else (st, false)

/-- `HandleFailedClient`: the range-over-map loop body runs for the first
iterated entry only (the `break` is unconditional); the entry is deleted only
when its connection equals the argument, and the argument is closed. -/
def HandleFailedClient (st : SelectorState) (client : Conn) : SelectorState :=
  match st.clientAndServer with
  | [] => st
  | e :: _ =>
    if e.2 = some client then
      { st with clientAndServer := alDel st.clientAndServer e.1,
                closed := client :: st.closed }
    else { st with closed := client :: st.closed }

/-- `Select`: the "No available service" guard, then the per-mode dispatch.
`rand.Intn` panics on a zero argument (the `Closest` branch can reach it with
an empty candidate list); a server index outside `Servers` models the
slice-index panic. -/
def Select (env : Env) (st : SelectorState) : SelectorState × SelectOutcome :=
  if st.len = 0 then (st, .result none (some "No available service"))
  else
    match st.SelectMode with
    | .RandomSelect =>
      let i := env.rndIntn st.len % st.len
      let st1 := { st with currentServer := i }
      match st1.Servers.get? i with
      | some server => getCachedClient env st1 server
      | none => (st1, .panics "index out of range")
    | .RoundRobin =>
      let i := (st.currentServer + 1) % st.len
      let st1 := { st with currentServer := i }
      match st1.Servers.get? i with
      | some server => getCachedClient env st1 server
      | none => (st1, .panics "index out of range")
    | .ConsistentHash =>
      let i := env.hash st.len
      let st1 := { st with currentServer := i }
      match st1.Servers.get? i with
      | some server => getCachedClient env st1 server
      | none => (st1, .panics "index out of range")
    | .WeightedRoundRobin | .WeightedICMP =>
      match nextWeighted st.WeightedServers with
      | some p => getCachedClient env { st with WeightedServers := p.2 } p.1
      | none => (st, .panics "nil pointer dereference")
    | .Closest =>
      let closest := getClosestServer env.dist st.metadata
      if closest.length = 0 then (st, .panics "invalid argument to Intn")
      else
        let sel := env.rndIntn closest.length % closest.length
        match closest.get? sel with
        | some server => getCachedClient env st server
        | none => (st, .panics "index out of range")
    | .Unknown => (st, .result none (some "not supported SelectMode: Unknown"))

/-! ## Concrete fixtures for counterexamples and witnesses -/

/-- A benign environment: every dial succeeds with handle 9. -/
def env0 : Env :=
  { rndIntn := fun _ => 0, dial := fun _ _ => (some 9, none), hash := fun _ => 0,
    dist := fun _ => 0, icmpW := fun _ => 1 }

/-- An environment whose every dial fails. -/
def envFail : Env :=
  { env0 with dial := fun _ _ => (none, some "connection refused") }

/-- One registered server `tcp@a:1` with a live cached connection 5. -/
def stC1 : SelectorState :=
  { BasePath := "/rpcx/S", Group := "", Servers := ["tcp@a:1"],
    WeightedServers := [{ Server := "tcp@a:1", Weight := 1, EffectiveWeight := 1 }],
    clientAndServer := [("tcp@a:1", some 5)], metadata := [("tcp@a:1", "")],
    SelectMode := rpcx.SelectMode.RoundRobin, currentServer := 0, len := 1,
    closed := [], dialed := [] }

/-- Closest mode over one server whose metadata has no coordinate fields. -/
def stC2 : SelectorState :=
  { stC1 with SelectMode := rpcx.SelectMode.Closest, metadata := [("tcp@a:1", "group=g")] }

/-- Two cached connections; iteration order puts `tcp@a:1` first. -/
def stC3 : SelectorState :=
  { stC1 with Servers := ["tcp@a:1", "tcp@b:2"], len := 2,
              clientAndServer := [("tcp@a:1", some 1), ("tcp@b:2", some 2)] }

/-- An empty connection cache in front of a failing dialer. -/
def stC8 : SelectorState := { stC1 with clientAndServer := [] }

/-- A malformed server key: no `"@"` separator. -/
def stC9 : SelectorState :=
  { stC1 with Servers := ["tcp127.0.0.1:8972"], clientAndServer := [] }

/-- A `create` notification: no branch of the watch loop handles it. -/
def resCreate : WatchResp :=
  { Action := "create", NodeKey := "/rpcx/S/tcp@b:2", NodeDir := false }

/-- An `expire` notification for the non-directory node of `tcp@a:1`. -/
def resExpire : WatchResp :=
  { Action := "expire", NodeKey := "/rpcx/S/tcp@a:1", NodeDir := false }

/-- A pull listing with one active node, one `state=inactive` node and one
group-mismatched node. -/
def nodesW7 : List EtcdNode :=
  [ { Key := "/rpcx/S/tcp@a:1", Value := "weight=2", Dir := false },
    { Key := "/rpcx/S/tcp@b:2", Value := "state=inactive", Dir := false },
    { Key := "/rpcx/S/tcp@c:3", Value := "group=other", Dir := false } ]

/-! ## General lemmas -/

theorem alFind_alSet {α : Type} (m : List (String × α)) (k k' : String) (v : α) :
    alFind (alSet m k v) k' = if k = k' then some v else alFind m k' := by
  induction m with
  | nil => simp [alSet, alFind]
  | cons e rest ih =>
    obtain ⟨a, b⟩ := e
    by_cases h1 : a = k
    · subst h1
      by_cases h2 : a = k' <;> simp [alSet, alFind, h2]
    · by_cases h2 : a = k'
      · subst h2
        have hk : ¬(k = a) := fun h => h1 h.symm
        simp [alSet, alFind, h1, hk]
      · simp [alSet, alFind, h1, h2, ih]

theorem map_removeIdx {α β : Type} (f : α → β) (l : List α) (k : Nat) :
    (removeIdx l k).map f = removeIdx (l.map f) k := by
  simp [removeIdx, List.map_take, List.map_drop]

/-- The parallel address and weighted-record sequences agree in length and
order: projecting the server keys out of `WeightedServers` yields exactly
`Servers`. -/
abbrev aligned (st : SelectorState) : Prop :=
  st.WeightedServers.map Weighted.Server = st.Servers

theorem removeOne_aligned (st : SelectorState) (k : Nat) (h : aligned st) :
    aligned (removeOne st k) := by
  have key : (removeIdx st.WeightedServers k).map Weighted.Server = removeIdx st.Servers k := by
    rw [map_removeIdx, h]
  unfold removeOne
  split <;> simpa using key

theorem foldl_removeOne_aligned (ks : List Nat) (st : SelectorState) (h : aligned st) :
    aligned (ks.foldl removeOne st) := by
  induction ks generalizing st with
  | nil => exact h
  | cons k ks ih =>
    rw [List.foldl_cons]
    exact ih _ (removeOne_aligned _ _ h)

theorem createWeighted_aligned (st : SelectorState) (nodes : List EtcdNode)
    (h : st.Servers = nodes.map (fun n => trimPre n.Key (st.BasePath ++ "/"))) :
    aligned (createWeighted st nodes) := by
  unfold createWeighted removeInactiveServers
  apply foldl_removeOne_aligned
  show (nodes.map (mkWeighted (st.BasePath ++ "/"))).map Weighted.Server = st.Servers
  rw [List.map_map, h]
  rfl

theorem icmpStep_aligned (env : Env) (st : SelectorState) (h : aligned st) :
    aligned (icmpStep env st) := by
  unfold icmpStep
  split
  · show (st.WeightedServers.map _).map Weighted.Server = st.Servers
    rw [List.map_map]
    exact h
  · exact h

theorem setLen_aligned (st : SelectorState) (h : aligned st) : aligned (setLen st) := h

theorem clampStep_aligned (st : SelectorState) (h : aligned st) : aligned (clampStep st) := by
  unfold clampStep
  split <;> exact h

theorem pullSuccess_aligned (env : Env) (st : SelectorState) (nodes : List EtcdNode) :
    aligned (pullSuccess env st nodes) := by
  unfold pullSuccess
  exact clampStep_aligned _ (setLen_aligned _
    (icmpStep_aligned env _ (createWeighted_aligned _ nodes rfl)))

theorem removeOne_metadata (st : SelectorState) (k : Nat) :
    (removeOne st k).metadata = st.metadata := by
  unfold removeOne
  split <;> rfl

theorem foldl_removeOne_metadata (ks : List Nat) (st : SelectorState) :
    (ks.foldl removeOne st).metadata = st.metadata := by
  induction ks generalizing st with
  | nil => rfl
  | cons k ks ih => rw [List.foldl_cons, ih, removeOne_metadata]

theorem removeOne_BasePath (st : SelectorState) (k : Nat) :
    (removeOne st k).BasePath = st.BasePath := by
  unfold removeOne
  split <;> rfl

theorem foldl_removeOne_BasePath (ks : List Nat) (st : SelectorState) :
    (ks.foldl removeOne st).BasePath = st.BasePath := by
  induction ks generalizing st with
  | nil => rfl
  | cons k ks ih => rw [List.foldl_cons, ih, removeOne_BasePath]

theorem createWeighted_BasePath (st : SelectorState) (nodes : List EtcdNode) :
    (createWeighted st nodes).BasePath = st.BasePath := by
  unfold createWeighted removeInactiveServers
  rw [foldl_removeOne_BasePath]

theorem icmpStep_BasePath (env : Env) (st : SelectorState) :
    (icmpStep env st).BasePath = st.BasePath := by
  unfold icmpStep
  split <;> rfl

theorem clampStep_BasePath (st : SelectorState) :
    (clampStep st).BasePath = st.BasePath := by
  unfold clampStep
  split <;> rfl

theorem pullSuccess_BasePath (env : Env) (st : SelectorState) (nodes : List EtcdNode) :
    (pullSuccess env st nodes).BasePath = st.BasePath := by
  unfold pullSuccess
  rw [clampStep_BasePath]
  show (icmpStep env _).BasePath = st.BasePath
  rw [icmpStep_BasePath]
  exact createWeighted_BasePath _ nodes

theorem pullServers_BasePath (env : Env) (st : SelectorState) (r : GetResult) :
    (pullServers env st r).BasePath = st.BasePath := by
  cases r with
  | failure => rfl
  | success nodes =>
    show (if nodes.length > 0 then pullSuccess env st nodes
      else { st with clientAndServer := [] }).BasePath = st.BasePath
    split
    · exact pullSuccess_BasePath env st nodes
    · rfl

theorem createWeighted_metadata (st : SelectorState) (nodes : List EtcdNode) :
    (createWeighted st nodes).metadata
      = nodes.foldl (fun m n => alSet m (trimPre n.Key (st.BasePath ++ "/")) n.Value)
          st.metadata := by
  unfold createWeighted removeInactiveServers
  rw [foldl_removeOne_metadata]

theorem foldl_alSet_isSome (nodes : List EtcdNode) (base : String)
    (m : List (String × String)) (k : String) (h : (alFind m k).isSome) :
    (alFind (nodes.foldl (fun m n => alSet m (trimPre n.Key base) n.Value) m) k).isSome := by
  induction nodes generalizing m with
  | nil => exact h
  | cons n ns ih =>
    rw [List.foldl_cons]
    apply ih
    rw [alFind_alSet]
    split <;> simp [h]

theorem icmpStep_metadata (env : Env) (st : SelectorState) :
    (icmpStep env st).metadata = st.metadata := by
  unfold icmpStep
  split <;> rfl

theorem clampStep_metadata (st : SelectorState) :
    (clampStep st).metadata = st.metadata := by
  unfold clampStep
  split <;> rfl

theorem pullSuccess_metadata (env : Env) (st : SelectorState) (nodes : List EtcdNode) :
    (pullSuccess env st nodes).metadata
      = (createWeighted
          { st with Servers := nodes.map (fun n => trimPre n.Key (st.BasePath ++ "/")) }
          nodes).metadata := by
  unfold pullSuccess
  rw [clampStep_metadata]
  show (icmpStep env _).metadata = _
  rw [icmpStep_metadata]

theorem pullServers_metadata_isSome (env : Env) (st : SelectorState) (r : GetResult)
    (k : String) (h : (alFind st.metadata k).isSome) :
    (alFind (pullServers env st r).metadata k).isSome := by
  cases r with
  | failure => exact h
  | success nodes =>
    show (alFind (if nodes.length > 0 then pullSuccess env st nodes
      else { st with clientAndServer := [] }).metadata k).isSome
    split
    · rw [pullSuccess_metadata, createWeighted_metadata]
      exact foldl_alSet_isSome nodes _ _ k h
    · exact h

theorem getCachedClient_metadata (env : Env) (st : SelectorState) (sv : String) :
    (getCachedClient env st sv).1.metadata = st.metadata := by
  unfold getCachedClient
  split
  · rfl
  · split <;> rfl

theorem HandleFailedClient_metadata (st : SelectorState) (c : Conn) :
    (HandleFailedClient st c).metadata = st.metadata := by
  unfold HandleFailedClient
  split
  · rfl
  · split <;> rfl

theorem Select_metadata (env : Env) (st : SelectorState) :
    (Select env st).1.metadata = st.metadata := by
  unfold Select
  split
  · rfl
  · split
    · rcases hsv : st.Servers[env.rndIntn st.len % st.len]? with _ | sv <;>
        simp [hsv, getCachedClient_metadata]
    · rcases hsv : st.Servers[(st.currentServer + 1) % st.len]? with _ | sv <;>
        simp [hsv, getCachedClient_metadata]
    · rcases hsv : st.Servers[env.hash st.len]? with _ | sv <;>
        simp [hsv, getCachedClient_metadata]
    · rcases hw : nextWeighted st.WeightedServers with _ | p <;>
        simp [hw, getCachedClient_metadata]
    · rcases hw : nextWeighted st.WeightedServers with _ | p <;>
        simp [hw, getCachedClient_metadata]
    · dsimp only
      split
      · rfl
      · rcases hsv : (getClosestServer env.dist st.metadata)[env.rndIntn
            (getClosestServer env.dist st.metadata).length %
              (getClosestServer env.dist st.metadata).length]? with _ | sv <;>
          simp [hsv, getCachedClient_metadata]
    · rfl

theorem watchStep_metadata (env : Env) (st : SelectorState) (res : WatchResp)
    (r : GetResult) :
    (watchStep env st res r).1.metadata = (pullServers env st r).metadata ∨
    (watchStep env st res r).1.metadata = st.metadata := by
  unfold watchStep
  split
  · left
    show (expireEvict (pullServers env st r) res).metadata = _
    unfold expireEvict
    split <;> rfl
  · split
    · left
      rfl
    · split
      · left
        rfl
      · right
        rfl

/-! ## Claim theorems -/

/-- Claim C1, counterexample: on a successful pull returning zero children the
server count does NOT become 0 — with one previously known server, `len` stays
1, `Servers` keeps the stale address, and the next `Select` call dials and
returns a connection instead of the "No available service" error.  Only the
connection cache is cleared. -/
theorem C1_counterexample :
    (pullServers env0 stC1 (GetResult.success [])).len = 1 ∧
    (pullServers env0 stC1 (GetResult.success [])).Servers = ["tcp@a:1"] ∧
    (pullServers env0 stC1 (GetResult.success [])).clientAndServer = [] ∧
    (Select env0 (pullServers env0 stC1 (GetResult.success []))).2
      ≠ SelectOutcome.result none (some "No available service") := by
  decide

/-- Claim C1 (amended): on a successful pull with zero children, `pullServers`
replaces the connection cache by a fresh empty map and changes nothing else:
`Servers`, `WeightedServers`, `len` and the cursor all keep their previous
values, so the server count stays at its previous value and a subsequent
`Select` still works off the stale server list. -/
theorem C1_zero_children_clears_only_cache (env : Env) (st : SelectorState) :
    pullServers env st (GetResult.success []) = { st with clientAndServer := [] } := rfl

/-- Claim C2, code bug at the failing input: in `Closest` mode with a non-zero
server count and a metadata map in which no server has valid coordinates, the
candidate list is empty and `Select` evaluates `rnd.Intn(0)`, which panics,
instead of returning the "no available service" error the spec requires. -/
theorem C2_closest_no_coords_panics :
    (Select env0 stC2).2 = SelectOutcome.panics "invalid argument to Intn" := by
  decide

/-- Claim C3, code bug at the failing input: the connection cache holds
`tcp@a:1 ↦ 1` and `tcp@b:2 ↦ 2` (in that iteration order) and
`HandleFailedClient` is called with connection 2.  The loop examines only the
first iterated entry before its unconditional `break`, so the matching entry
for connection 2 survives in the cache — while connection 2 is closed — and a
later `Select` resolving `tcp@b:2` would be handed the closed connection from
the cache instead of dialing a fresh one. -/
theorem C3_matching_entry_survives :
    (HandleFailedClient stC3 2).clientAndServer
      = [("tcp@a:1", some 1), ("tcp@b:2", some 2)] ∧
    (HandleFailedClient stC3 2).closed = [2] := by
  decide

/-- Claim C4, counterexample: a notification with action `create` triggers no
re-pull — the pulled flag is false and the state is completely unchanged
(the supplied pull result would have cleared the non-empty connection cache,
so a pull observably did not happen). -/
theorem C4_counterexample :
    (watchStep env0 stC1 resCreate (GetResult.success [])).2 = false ∧
    (watchStep env0 stC1 resCreate (GetResult.success [])).1 = stC1 := by
  decide

/-- Claim C4 (amended): the watch loop triggers a full `pullServers` re-pull
for notifications whose action is `set`, `update`, `delete` or `expire`;
a `create` action (or any other unlisted action) triggers nothing. -/
theorem C4_pull_on_handled_actions (env : Env) (st : SelectorState) (res : WatchResp)
    (r : GetResult)
    (h : res.Action = "set" ∨ res.Action = "update" ∨ res.Action = "delete" ∨
      res.Action = "expire") :
    (watchStep env st res r).2 = true := by
  unfold watchStep
  rcases h with h | h | h | h <;> simp [h]

/-- Claim C4 witness: a concrete `delete` notification yields a re-pull. -/
theorem C4_witness :
    (watchStep env0 stC1
      { Action := "delete", NodeKey := "/rpcx/S/x", NodeDir := false }
      GetResult.failure).2 = true :=
  C4_pull_on_handled_actions env0 stC1
    { Action := "delete", NodeKey := "/rpcx/S/x", NodeDir := false }
    GetResult.failure (Or.inr (Or.inr (Or.inl rfl)))

/-- Claim C5, counterexample: an `expire` notification for the non-directory
node of `tcp@a:1`, whose cached connection is 5, deletes the cache entry but
never closes the connection — the closed trace stays empty. -/
theorem C5_counterexample :
    (watchStep env0 stC1 resExpire GetResult.failure).1.clientAndServer = [] ∧
    (watchStep env0 stC1 resExpire GetResult.failure).1.closed = [] := by
  decide

/-- Claim C5 (amended): on an `expire` notification for a non-directory node
the watch loop, after the re-pull, deletes that address's cache map entry; the
underlying connection is NOT closed by this path (no close beyond whatever
the re-pull itself did). -/
theorem C5_expire_evicts_entry_without_close (env : Env) (st : SelectorState)
    (res : WatchResp) (r : GetResult)
    (h1 : res.Action = "expire") (h2 : res.NodeDir = false) :
    (watchStep env st res r).1.clientAndServer
      = alDel (pullServers env st r).clientAndServer
          (trimPre res.NodeKey (st.BasePath ++ "/")) ∧
    (watchStep env st res r).1.closed = (pullServers env st r).closed := by
  unfold watchStep
  rw [if_pos h1]
  unfold expireEvict
  rw [if_pos h2]
  refine ⟨?_, rfl⟩
  show alDel (pullServers env st r).clientAndServer
      (trimPre res.NodeKey ((pullServers env st r).BasePath ++ "/")) = _
  rw [pullServers_BasePath]

/-- Claim C5 witness: the amended statement at the concrete expire input. -/
theorem C5_witness :
    (watchStep env0 stC1 resExpire GetResult.failure).1.clientAndServer
      = alDel (pullServers env0 stC1 GetResult.failure).clientAndServer
          (trimPre resExpire.NodeKey (stC1.BasePath ++ "/")) ∧
    (watchStep env0 stC1 resExpire GetResult.failure).1.closed
      = (pullServers env0 stC1 GetResult.failure).closed :=
  C5_expire_evicts_entry_without_close env0 stC1 resExpire GetResult.failure rfl rfl

/-- Claim C6: when the registry pull fails (a non-nil error or a nil response
node, both modelled by `GetResult.failure`), `pullServers` returns the state
completely unchanged — address sequence, weighted records, `len`, cursor and
connection cache are all retained, and `pullServers` produces no error value
that could reach a `Select` caller (in the Go code it returns nothing). -/
theorem C6_pull_failure_keeps_state (env : Env) (st : SelectorState) :
    pullServers env st GetResult.failure = st := rfl

/-- Claim C7: a completed pull preserves the alignment invariant — the
weighted-record sequence projected to its server keys equals the address
sequence (hence equal length and matching order), including when records are
excluded for inactive state or group mismatch (the exclusion removes the same
index from both sequences, from the last collected index down).  The initial
state (both sequences empty) is aligned, so every reachable post-pull state
is aligned. -/
theorem C7_pull_preserves_alignment (env : Env) (st : SelectorState) (r : GetResult)
    (h : aligned st) : aligned (pullServers env st r) := by
  cases r with
  | failure => exact h
  | success nodes =>
    show aligned (if nodes.length > 0 then pullSuccess env st nodes
      else { st with clientAndServer := [] })
    split
    · exact pullSuccess_aligned env st nodes
    · exact h

/-- Claim C7 witness: a pull whose listing contains an active node, a
`state=inactive` node and a group-mismatched node keeps the sequences
aligned. -/
theorem C7_witness : aligned (pullServers env0 stC1 (GetResult.success nodesW7)) :=
  C7_pull_preserves_alignment env0 stC1 (GetResult.success nodesW7) (by decide)

/-- Claim C8, counterexample: after a failed dial the nil result is cached and
the error is returned, but an immediately following `getCachedClient` for the
same address dials AGAIN (the dialed trace grows to two entries), because the
nil cache entry reads back as a miss. -/
theorem C8_counterexample :
    (getCachedClient envFail stC8 "tcp@a:1").1.clientAndServer = [("tcp@a:1", none)] ∧
    (getCachedClient envFail stC8 "tcp@a:1").2
      = SelectOutcome.result none (some "connection refused") ∧
    (getCachedClient envFail (getCachedClient envFail stC8 "tcp@a:1").1 "tcp@a:1").1.dialed
      = ["tcp@a:1", "tcp@a:1"] := by
  decide

/-- Claim C8 (amended): on a cache miss with a well-formed key and a failing
dialer, `getCachedClient` inserts the nil dial result into the cache and
returns the dial error to its caller; but since the lookup treats a nil entry
as a miss, an immediately following `getCachedClient` for the same address
dials again (the dialed trace gains the address twice). -/
theorem C8_failed_dial_cached_but_redials (env : Env) (st : SelectorState)
    (sv net hp : String) (rest : List String) (e : String)
    (hmiss : mapGet st.clientAndServer sv = none)
    (hsplit : goSplit sv '@' = net :: hp :: rest)
    (hfail : env.dial net hp = (none, some e)) :
    (getCachedClient env st sv).2 = SelectOutcome.result none (some e) ∧
    alFind (getCachedClient env st sv).1.clientAndServer sv = some none ∧
    (getCachedClient env (getCachedClient env st sv).1 sv).1.dialed
      = (st.dialed ++ [sv]) ++ [sv] := by
  have h1 : getCachedClient env st sv
      = ({ st with clientAndServer := alSet st.clientAndServer sv none,
                   dialed := st.dialed ++ [sv] },
         SelectOutcome.result none (some e)) := by
    simp only [getCachedClient, hmiss, hsplit, hfail]
  have hmiss2 : mapGet (alSet st.clientAndServer sv none) sv = none := by
    unfold mapGet
    rw [alFind_alSet]
    simp
  have h2 : getCachedClient env
      { st with clientAndServer := alSet st.clientAndServer sv none,
                dialed := st.dialed ++ [sv] } sv
      = ({ st with clientAndServer := alSet (alSet st.clientAndServer sv none) sv none,
                   dialed := (st.dialed ++ [sv]) ++ [sv] },
         SelectOutcome.result none (some e)) := by
    simp only [getCachedClient, hmiss2, hsplit, hfail]
  simp [h1, h2, alFind_alSet]

/-- Claim C8 witness: the amended statement at the concrete failing dialer. -/
theorem C8_witness :
    (getCachedClient envFail stC8 "tcp@a:1").2
      = SelectOutcome.result none (some "connection refused") ∧
    alFind (getCachedClient envFail stC8 "tcp@a:1").1.clientAndServer "tcp@a:1"
      = some none ∧
    (getCachedClient envFail (getCachedClient envFail stC8 "tcp@a:1").1 "tcp@a:1").1.dialed
      = (stC8.dialed ++ ["tcp@a:1"]) ++ ["tcp@a:1"] :=
  C8_failed_dial_cached_but_redials envFail stC8 "tcp@a:1" "tcp" "a:1" [] "connection refused"
    rfl rfl rfl

/-- Claim C9, code bug at the failing input: the server key
`tcp127.0.0.1:8972` has no `"@"` separator, so `strings.Split` yields one
part and the `ss[1]` access panics with index out of range — both in
`getCachedClient` (on a cache miss) and in `AllClients` (modelled by the
`none` result) — instead of failing fast with an error. -/
theorem C9_malformed_key_panics :
    (getCachedClient env0 stC9 "tcp127.0.0.1:8972").2
      = SelectOutcome.panics "index out of range" ∧
    AllClients env0 stC9 = none := by
  decide

/-- Claim C10: no operation ever deletes an entry from the metadata map —
`createWeighted` only adds or overwrites entries, `removeInactiveServers`
leaves the metadata untouched, and `pullServers`, the watch step,
`HandleFailedClient`, `getCachedClient` and `Select` all keep every present
key present.  Hence a server removed from the server list keeps its metadata
entry and remains a candidate source for Closest-mode selection (which draws
its candidates from this map). -/
theorem C10_metadata_never_deleted (env : Env) (st : SelectorState) (r : GetResult)
    (res : WatchResp) (c : Conn) (sv k : String) (ns : List EtcdNode) (ks : List Nat)
    (h : (alFind st.metadata k).isSome) :
    (alFind (createWeighted st ns).metadata k).isSome ∧
    (removeInactiveServers st ks).metadata = st.metadata ∧
    (alFind (pullServers env st r).metadata k).isSome ∧
    (alFind (watchStep env st res r).1.metadata k).isSome ∧
    (alFind (HandleFailedClient st c).metadata k).isSome ∧
    (alFind (getCachedClient env st sv).1.metadata k).isSome ∧
    (alFind (Select env st).1.metadata k).isSome := by
  refine ⟨?_, ?_, pullServers_metadata_isSome env st r k h, ?_, ?_, ?_, ?_⟩
  · rw [createWeighted_metadata]
    exact foldl_alSet_isSome ns _ _ k h
  · unfold removeInactiveServers
    rw [foldl_removeOne_metadata]
  · rcases watchStep_metadata env st res r with hw | hw
    · rw [hw]
      exact pullServers_metadata_isSome env st r k h
    · rw [hw]
      exact h
  · rw [HandleFailedClient_metadata]
    exact h
  · rw [getCachedClient_metadata]
    exact h
  · rw [Select_metadata]
    exact h

/-- Claim C10 witness: the statement at concrete inputs, including a pull that
removes the inactive servers of the listing. -/
theorem C10_witness :
    (alFind (createWeighted stC1 nodesW7).metadata "tcp@a:1").isSome ∧
    (removeInactiveServers stC1 [0]).metadata = stC1.metadata ∧
    (alFind (pullServers env0 stC1 (GetResult.success nodesW7)).metadata "tcp@a:1").isSome ∧
    (alFind (watchStep env0 stC1 resExpire (GetResult.success nodesW7)).1.metadata
      "tcp@a:1").isSome ∧
    (alFind (HandleFailedClient stC1 5).metadata "tcp@a:1").isSome ∧
    (alFind (getCachedClient env0 stC1 "tcp@a:1").1.metadata "tcp@a:1").isSome ∧
    (alFind (Select env0 stC1).1.metadata "tcp@a:1").isSome :=
  C10_metadata_never_deleted env0 stC1 (GetResult.success nodesW7) resExpire 5
    "tcp@a:1" "tcp@a:1" nodesW7 [0] (by decide)

end EtcdSelector
